import Mathlib

/-!
Shallow embedding of `PyPI/package_analysis.py`: an ETL script that downloads
a Python package archive, extracts it, scans the extracted `.py` files
for import statements with two regular expressions, resolves names against a
`packages` catalog table and inserts `(package, needs_package, req_type,
times)` rows into a `dependencies` table.

File contents are modelled as an oracle `contentOf : String → String`; the
local filesystem as an `FS` record of existing directory and file paths; the
MySQL store as a `Db` record plus a fault oracle injecting store errors; the
network as a `remote : String → List String` oracle giving the relative
paths contained in the archive at a URL.
-/

namespace PkgAnalysis

/-! ### Python string/regex primitives -/

/-- Python `\s` for ASCII text: space, tab, newline, carriage return,
vertical tab, form feed. -/
def isPySpace (c : Char) : Bool :=
  c == ' ' || c == '\t' || c == '\n' || c == '\r' || c == '\x0b' || c == '\x0c'

/-- Character class `[a-zA-Z0-9_]` of the identifier group in both import
patterns. -/
def isIdentCh (c : Char) : Bool :=
  c.isAlpha || c.isDigit || c == '_'

/-- Consume a literal token of the pattern (e.g. `import`) from the front of
the input, or fail. -/
def dropLit : List Char → List Char → Option (List Char)
  | [], s => some s
  | _ :: _, [] => none
  | c :: cs, d :: ds => if c == d then dropLit cs ds else none

/-- Consume `\s+`: at least one whitespace character, greedily. -/
def afterSpaces1 : List Char → Option (List Char)
  | [] => none
  | c :: rest => if isPySpace c then some (rest.dropWhile isPySpace) else none

/-- Consume the capture group `([a-zA-Z][a-zA-Z0-9_]*)`, greedily, returning
the captured identifier and the rest of the input. -/
def takeIdent : List Char → Option (String × List Char)
  | [] => none
  | c :: rest =>
    if c.isAlpha then
      some (String.mk (c :: rest.takeWhile isIdentCh), rest.dropWhile isIdentCh)
    else none

/-- One attempt of `simple_pattern = ^\s*import\s+([a-zA-Z][a-zA-Z0-9_]*)`
at the current position (the `^` anchor is handled by the scanner). -/
def trySimple (s : List Char) : Option (String × List Char) := do
  let s1 ← dropLit "import".toList (s.dropWhile isPySpace)
  let s2 ← afterSpaces1 s1
  takeIdent s2

/-- One attempt of `from_pattern = ^\s*from\s+import\s+([a-zA-Z][a-zA-Z0-9_]*)`
at the current position.  Note the pattern, exactly as in the source, has no
module-name group between `from` and `import`. -/
def tryFrom (s : List Char) : Option (String × List Char) := do
  let s1 ← dropLit "from".toList (s.dropWhile isPySpace)
  let s2 ← afterSpaces1 s1
  let s3 ← dropLit "import".toList s2
  let s4 ← afterSpaces1 s3
  takeIdent s4

/-- `re.findall` with `re.MULTILINE`: scan left to right; at every position
where `^` holds (start of the text, or right after a newline) attempt the
pattern; on a match record the capture and resume after the match, otherwise
advance one character.  Fuel bounds the recursion; every step consumes at
least one character, so `length + 1` fuel is exact. -/
def scanAux (tryPat : List Char → Option (String × List Char)) :
    Nat → List Char → Bool → List String
  | 0, _, _ => []
  | _ + 1, [], _ => []
  | n + 1, c :: rest, atStart =>
    if atStart then
      match tryPat (c :: rest) with
      | some (name, rest2) => name :: scanAux tryPat n rest2 false
      | none => scanAux tryPat n rest (c == '\n')
    else
      scanAux tryPat n rest (c == '\n')

/-- `pattern.findall(content)` for one of the two import patterns. -/
def findall (tryPat : List Char → Option (String × List Char))
    (content : String) : List String :=
  scanAux tryPat (content.toList.length + 1) content.toList true

/-- Python `str.endswith`. -/
def endswith (s suffix : String) : Bool :=
  suffix.toList.isSuffixOf s.toList

/-- Python `s[:-n]` for `0 < n` (slicing off the last `n` characters). -/
def sliceDropRight (s : String) (n : Nat) : String :=
  String.mk (s.toList.take (s.toList.length - n))

/-- Python `x in y` substring test (used on exception messages). -/
def containsSub (s pat : String) : Bool :=
  go s.toList
where
  go : List Char → Bool
    | [] => pat.toList.isEmpty
    | c :: rest => pat.toList.isPrefixOf (c :: rest) || go rest

/-! ### The import scanner (`get_imports`) -/

/-- One `imports[name] += 1 / imports[name] = 1` step on the insertion-ordered
dict of counts. -/
def bump (m : List (String × Nat)) (k : String) : List (String × Nat) :=
  if m.any (fun p => p.1 == k) then
    m.map (fun p => if p.1 == k then (p.1, p.2 + 1) else p)
  else
    m ++ [(k, 1)]

/-- `get_imports(filepaths, pkg_name)`: keep the `.py` files, run both
patterns over each file's text and count the captured names.  File contents
are supplied by the oracle `contentOf`. -/
def get_imports (contentOf : String → String) (filepaths : List String) :
    List (String × Nat) :=
  let pyfiles := filepaths.filter (fun f => endswith f ".py")
  pyfiles.foldl
    (fun imports filep =>
      let content := contentOf filep
      let imported := findall trySimple content ++ findall tryFrom content
      imported.foldl bump imports)
    []

/-! ### The declared-dependency extractors (`get_requirements`, `get_setup_packages`) -/

/-- Severity levels of the `logging` calls the script makes. -/
inductive LogLevel
  | debug
  | info
  | warning
deriving DecidableEq, Repr

/-- One timestamped log line (timestamp elided). -/
structure LogEntry where
  level : LogLevel
  msg : String
deriving DecidableEq, Repr

/-- `get_requirements(filepaths, pkg_name)`: looks for a path ending in
`requirements.txt`, logs it if present (parsing is a TODO in the source),
and returns the never-populated `imports` dict together with the log. -/
def get_requirements (filepaths : List String) (pkg_name : String) :
    List (String × Nat) × List LogEntry :=
  let imports : List (String × Nat) := []
  match filepaths.filter (fun f => endswith f "requirements.txt") with
  | f :: _ => (imports, [⟨.info, f⟩])
  | [] => (imports, [⟨.debug, "Package " ++ pkg_name ++ " has no requirements.txt."⟩])

/-- `get_setup_packages(filepaths, pkg_name)`: same shape for `setup.py`
(parsing is likewise a TODO in the source). -/
def get_setup_packages (filepaths : List String) (pkg_name : String) :
    List (String × Nat) × List LogEntry :=
  let imports : List (String × Nat) := []
  match filepaths.filter (fun f => endswith f "setup.py") with
  | f :: _ => (imports, [⟨.info, f⟩])
  | [] => (imports, [⟨.debug, "Package " ++ pkg_name ++ " has no setup.py."⟩])

/-! ### The catalog store -/

/-- A row of the `dependencies` table. -/
structure DepRow where
  package : Nat
  needs_package : Nat
  req_type : String
  times : Nat
deriving DecidableEq, Repr

/-- The relational store: the pre-populated `packages` catalog (`id`, `name`
columns, in table order) and the `dependencies` table. -/
structure Db where
  packages : List (Nat × String)
  dependencies : List DepRow
deriving DecidableEq, Repr

/-- Errors a store operation can raise: `pymysql.err.IntegrityError` (the
only class the recorder catches), carrying its `str(e)` message, or any
other store error, which no handler in the script catches. -/
inductive SqlError
  | integrity (msg : String)
  | operational (msg : String)
deriving DecidableEq, Repr

/-- `get_pkg_id_by_name(pkg_name, mysql)`: parameterized exact-match
`SELECT id FROM packages WHERE name = %s`, `fetchone`, returning the id of
the first matching row or `None`. -/
def get_pkg_id_by_name (pkg_name : String) (db : Db) : Option Nat :=
  (db.packages.find? (fun p => p.2 == pkg_name)).map Prod.fst

/-- The `str(e)` text MySQL produces for a duplicate-key insert; the
recorder only inspects it for the substring `Duplicate entry`. -/
def dupEntryMsg : String := "(1062, Duplicate entry for key dependencies.PRIMARY)"

/-- `cursor.execute(INSERT INTO dependencies ...)` followed by `commit`.
The fault oracle injects external store errors; absent a fault, inserting a
row whose `(package, needs_package, req_type)` key already exists raises an
`IntegrityError` mentioning `Duplicate entry`, and otherwise the row is
appended. -/
def execInsert (faults : DepRow → Option SqlError) (db : Db) (row : DepRow) :
    Except SqlError Db :=
  match faults row with
  | some e => .error e
  | none =>
    if db.dependencies.any (fun r =>
        r.package == row.package && r.needs_package == row.needs_package &&
        r.req_type == row.req_type) then
      .error (.integrity dupEntryMsg)
    else
      .ok { db with dependencies := db.dependencies ++ [row] }

instance {ε α : Type} [DecidableEq ε] [DecidableEq α] : DecidableEq (Except ε α) := fun a b =>
  match a, b with
  | .ok x, .ok y =>
    if h : x = y then isTrue (congrArg Except.ok h)
    else isFalse (fun hc => h (Except.ok.inj hc))
  | .error x, .error y =>
    if h : x = y then isTrue (congrArg Except.error h)
    else isFalse (fun hc => h (Except.error.inj hc))
  | .ok _, .error _ => isFalse (fun hc => Except.noConfusion hc)
  | .error _, .ok _ => isFalse (fun hc => Except.noConfusion hc)

/-! ### The dependency recorder (`insert_dependency_db`) -/

/-- `insert_dependency_db(imported_packages, req_type, package_id, mysql,
connection)`: for each `(pkg, times)` entry in order, resolve `pkg` in the
catalog; if unresolved log at info severity and skip; if resolved attempt
the insert, where an `IntegrityError` whose message mentions
`Duplicate entry` is swallowed, any other `IntegrityError` is logged as a
warning, and a non-integrity store error propagates (aborting the batch).
Returns whether an exception escaped, the store state, and the log. -/
def insert_dependency_db (faults : DepRow → Option SqlError)
    (imported_packages : List (String × Nat)) (req_type : String)
    (package_id : Nat) (db : Db) :
    Except SqlError Unit × Db × List LogEntry :=
  match imported_packages with
  | [] => (.ok (), db, [])
  | (pkg, times) :: rest =>
    match get_pkg_id_by_name pkg db with
    | some needs =>
      let row : DepRow := ⟨package_id, needs, req_type, times⟩
      match execInsert faults db row with
      | .ok db1 => insert_dependency_db faults rest req_type package_id db1
      | .error (.integrity msg) =>
        if containsSub msg "Duplicate entry" then
          insert_dependency_db faults rest req_type package_id db
        else
          let out := insert_dependency_db faults rest req_type package_id db
          (out.1, out.2.1, ⟨.warning, msg⟩ :: out.2.2)
      | .error (.operational msg) => (.error (.operational msg), db, [])
    | none =>
      let out := insert_dependency_db faults rest req_type package_id db
      (out.1, out.2.1, ⟨.info, "Package " ++ pkg ++ " was not found. Skip."⟩ :: out.2.2)

/-- `store_dependencies(mysql, package_id, required, imported, setup)`:
three recorder batches over one connection, in source order `imported`,
`requirements.txt`, `setup.py`; an escaped store exception stops the
remaining batches. -/
def store_dependencies (faults : DepRow → Option SqlError) (package_id : Nat)
    (required_packages imported_packages setup_packages : List (String × Nat))
    (db : Db) : Except SqlError Unit × Db × List LogEntry :=
  match insert_dependency_db faults imported_packages "imported" package_id db with
  | (.error e, db1, l1) => (.error e, db1, l1)
  | (.ok _, db1, l1) =>
    match insert_dependency_db faults required_packages "requirements.txt" package_id db1 with
    | (.error e, db2, l2) => (.error e, db2, l1 ++ l2)
    | (.ok _, db2, l2) =>
      match insert_dependency_db faults setup_packages "setup.py" package_id db2 with
      | (r, db3, l3) => (r, db3, l1 ++ l2 ++ l3)

/-! ### The archive fetcher (`download`) -/

/-- `get_pkg_extension(package_url)`: `.tar.gz` and `.whl` are the only
recognized archive extensions; anything else raises `NotImplementedError`. -/
def get_pkg_extension (package_url : String) : Except String String :=
  if endswith package_url ".tar.gz" then .ok ".tar.gz"
  else if endswith package_url ".whl" then .ok ".whl"
  else .error "NotImplementedError"

/-- `os.path.basename`: the part of the URL after the last slash. -/
def basename (s : String) : String :=
  String.mk ((s.toList.reverse.takeWhile (fun c => c != '/')).reverse)

/-- The local filesystem, as far as the script observes it: which directory
paths and which file paths exist. -/
structure FS where
  dirs : List String
  files : List String
deriving DecidableEq, Repr

/-- `os.path.exists`: true for an existing directory or file. -/
def FS.existsPath (fs : FS) (p : String) : Bool :=
  fs.dirs.contains p || fs.files.contains p

/-- Lines 192-193: `if not os.path.exists(target_dir): os.makedirs(target_dir)`
with `target_dir = "pypipackages"`. -/
def ensure_cache_dir (fs : FS) : FS :=
  if fs.existsPath "pypipackages" then fs
  else { fs with dirs := "pypipackages" :: fs.dirs }

/-- Lines 197-201: `if not os.path.exists(target): urlretrieve(package_url,
target)`.  Returns the filesystem and how many network downloads were
performed (0 or 1). -/
def ensure_download (target : String) (fs : FS) : FS × Nat :=
  if fs.existsPath target then (fs, 0)
  else ({ fs with files := target :: fs.files }, 1)

/-- Lines 203-212: extract the archive into `target[:-file_ending_len]`
unless that directory already exists; the archive at the URL contains the
relative paths `remote url`.  The final `else: raise NotImplementedError`
branch of the source is kept although it is unreachable once
`get_pkg_extension` has succeeded. -/
def ensure_extract (remote : String → List String) (package_url exdir : String)
    (fs : FS) : Except String FS :=
  if fs.existsPath exdir then .ok fs
  else if endswith package_url "tar.gz" || endswith package_url ".whl" then
    .ok { dirs := exdir :: fs.dirs,
          files := fs.files ++ (remote package_url).map (fun r => exdir ++ "/" ++ r) }
  else .error "NotImplementedError"

/-- Lines 214-217: `os.walk` over the extraction directory, collecting the
file paths underneath it. -/
def walkFiles (fs : FS) (dir : String) : List String :=
  fs.files.filter (fun f => (dir ++ "/").toList.isPrefixOf f.toList)

/-- `download(package_url)`: check the extension, ensure the cache
directory, download the archive if it is not cached, extract it if the
extraction directory is absent, then walk the extraction directory.
Returns the list of extracted file paths (or the uncaught error), the
filesystem afterwards, and the number of network downloads performed. -/
def download (remote : String → List String) (package_url : String) (fs : FS) :
    Except String (List String) × FS × Nat :=
  match get_pkg_extension package_url with
  | .error e => (.error e, fs, 0)
  | .ok ext =>
    let fs1 := ensure_cache_dir fs
    let target := "pypipackages/" ++ basename package_url
    let fs2net := ensure_download target fs1
    let exdir := sliceDropRight target ext.length
    match ensure_extract remote package_url exdir fs2net.1 with
    | .error e => (.error e, fs2net.1, fs2net.2)
    | .ok fs3 => (.ok (walkFiles fs3 exdir), fs3, fs2net.2)

/-! ### The driver (`main`) -/

/-- How one run of `main(package_name, package_url)` ends: normally, via
`sys.exit(1)` when the source package is not in the catalog, or with an
uncaught exception from the fetcher or the store. -/
inductive MainResult
  | ok
  | exit1
  | raisedStr (e : String)
  | raisedSql (e : SqlError)
deriving DecidableEq, Repr

/-- `main(package_name, package_url)`: download and extract first, then
resolve the source package (exiting with code 1 if unresolved), then run
the three extractors and record the dependencies.  Returns the outcome, the
filesystem, the store, the recorder log, and the network download count. -/
def main (remote : String → List String) (contentOf : String → String)
    (faults : DepRow → Option SqlError) (package_name package_url : String)
    (db : Db) (fs : FS) : MainResult × FS × Db × List LogEntry × Nat :=
  match download remote package_url fs with
  | (.error e, fs1, n) => (.raisedStr e, fs1, db, [], n)
  | (.ok filepaths, fs1, n) =>
    match get_pkg_id_by_name package_name db with
    | none => (.exit1, fs1, db, [⟨.info, "Package id could not be determined"⟩], n)
    | some package_id =>
      let required_packages := (get_requirements filepaths package_name).1
      let imported_packages := get_imports contentOf filepaths
      let setup_packages := (get_setup_packages filepaths package_name).1
      match store_dependencies faults package_id required_packages
          imported_packages setup_packages db with
      | (.error e, db1, logs) => (.raisedSql e, fs1, db1, logs, n)
      | (.ok _, db1, logs) => (.ok, fs1, db1, logs, n)

/-! ### Theorems -/

/-- C1: the claim says a line of the form `from X import Y` makes the
scanner record a referenced name.  The from-pattern in the source is
`^\s*from\s+import\s+([a-zA-Z][a-zA-Z0-9_]*)`, with no module-name group
between `from` and `import`, so a real `from os import path` line records
nothing, while only the ill-formed literal text `from import path` would
match.  The first conjunct evaluates the scanner at the claimed input and
refutes the claim; the second shows what the pattern actually matches. -/
theorem c1_from_import_never_matches :
    get_imports (fun _ => "from os import path") ["a.py"] = []
    ∧ get_imports (fun _ => "from import path") ["a.py"] = [("path", 1)] := by
  decide

/-- C4: both declared-dependency extractors return an empty name-to-count
mapping for every list of extracted file paths, whether or not a matching
`requirements.txt` or `setup.py` path is present. -/
theorem c4_extractors_return_empty (filepaths : List String) (pkg_name : String) :
    (get_requirements filepaths pkg_name).1 = []
    ∧ (get_setup_packages filepaths pkg_name).1 = [] := by
  refine ⟨?_, ?_⟩
  · unfold get_requirements
    cases filepaths.filter (fun f => endswith f "requirements.txt") <;> rfl
  · unfold get_setup_packages
    cases filepaths.filter (fun f => endswith f "setup.py") <;> rfl

/-- C6: catalog lookup by exact name match returns `none` (not an error)
when no row has the requested name, and returns the identifier of a row
carrying that name when one is present. -/
theorem c6_get_pkg_id_by_name_lookup (pkg_name : String) (db : Db) :
    ((∀ p ∈ db.packages, p.2 ≠ pkg_name) → get_pkg_id_by_name pkg_name db = none)
    ∧ (∀ i, (i, pkg_name) ∈ db.packages →
        ∃ j, get_pkg_id_by_name pkg_name db = some j ∧ (j, pkg_name) ∈ db.packages) := by
  constructor
  · intro h
    unfold get_pkg_id_by_name
    rw [List.find?_eq_none.mpr]
    · rfl
    · intro p hp
      simpa using h p hp
  · intro i hi
    have hsome : (db.packages.find? (fun p => p.2 == pkg_name)).isSome := by
      rw [List.find?_isSome]
      exact ⟨(i, pkg_name), hi, by simp⟩
    obtain ⟨q, hq⟩ := Option.isSome_iff_exists.mp hsome
    have hmem := List.mem_of_find?_eq_some hq
    have hpred := List.find?_some hq
    obtain ⟨qi, qn⟩ := q
    have hqn : qn = pkg_name := by simpa using hpred
    subst hqn
    exact ⟨qi, by unfold get_pkg_id_by_name; rw [hq]; rfl, hmem⟩

/-- C6 witness: on a concrete one-row catalog, an absent name yields `none`
and the present name yields its id. -/
theorem c6_witness :
    get_pkg_id_by_name "b" ⟨[(5, "a")], []⟩ = none
    ∧ ∃ j, get_pkg_id_by_name "a" ⟨[(5, "a")], []⟩ = some j
        ∧ (j, "a") ∈ (Db.mk [(5, "a")] []).packages :=
  ⟨(c6_get_pkg_id_by_name_lookup "b" ⟨[(5, "a")], []⟩).1 (by decide),
   (c6_get_pkg_id_by_name_lookup "a" ⟨[(5, "a")], []⟩).2 5 (by decide)⟩

/-- C7: a URL ending in neither `.tar.gz` nor `.whl` makes the fetcher fail
with the unsupported-format error before any network download or any
change to the filesystem. -/
theorem c7_unsupported_extension (remote : String → List String)
    (package_url : String) (fs : FS)
    (h1 : endswith package_url ".tar.gz" = false)
    (h2 : endswith package_url ".whl" = false) :
    download remote package_url fs = (.error "NotImplementedError", fs, 0) := by
  unfold download get_pkg_extension
  simp [h1, h2]

/-- C7 witness: a `.zip` URL fails with no filesystem change and zero
downloads. -/
theorem c7_witness :
    download (fun _ => []) "http://h/p.zip" ⟨[], []⟩
      = (.error "NotImplementedError", ⟨[], []⟩, 0) :=
  c7_unsupported_extension (fun _ => []) "http://h/p.zip" ⟨[], []⟩
    (by decide) (by decide)

/-- C8: the scanner counts additively; a file with `import numpy` and, two
lines later, `import numpy` again maps `numpy` to 2. -/
theorem c8_imports_counted_additively :
    get_imports (fun _ => "import numpy\n\nimport numpy") ["a.py"]
      = [("numpy", 2)] := by
  decide

/-- C9: `import numpy as np` records `numpy` once and never the alias
`np`; the plain pattern captures only the first identifier after
`import`. -/
theorem c9_alias_not_recorded :
    get_imports (fun _ => "import numpy as np") ["a.py"] = [("numpy", 1)] := by
  decide

/-- C2 (amended): when a resolved entry's insert raises an integrity error
whose message mentions `Duplicate entry`, the recorder swallows it with no
log and continues with the rest of the batch unchanged; when it raises any
other integrity error, the recorder logs the message as a warning and
continues; but when the insert raises a non-integrity store error, the
error propagates, no warning is logged, and the batch is aborted with the
remaining entries unprocessed. -/
theorem c2_recorder_error_handling
    (faults : DepRow → Option SqlError) (pkg : String) (times : Nat)
    (rest : List (String × Nat)) (req_type : String) (package_id : Nat)
    (db : Db) (needs : Nat)
    (hlook : get_pkg_id_by_name pkg db = some needs) :
    (∀ msg,
      execInsert faults db ⟨package_id, needs, req_type, times⟩ = .error (.integrity msg) →
      containsSub msg "Duplicate entry" = true →
      insert_dependency_db faults ((pkg, times) :: rest) req_type package_id db
        = insert_dependency_db faults rest req_type package_id db)
    ∧ (∀ msg,
      execInsert faults db ⟨package_id, needs, req_type, times⟩ = .error (.integrity msg) →
      containsSub msg "Duplicate entry" = false →
      insert_dependency_db faults ((pkg, times) :: rest) req_type package_id db
        = ((insert_dependency_db faults rest req_type package_id db).1,
           (insert_dependency_db faults rest req_type package_id db).2.1,
           LogEntry.mk .warning msg
             :: (insert_dependency_db faults rest req_type package_id db).2.2))
    ∧ (∀ msg,
      execInsert faults db ⟨package_id, needs, req_type, times⟩ = .error (.operational msg) →
      insert_dependency_db faults ((pkg, times) :: rest) req_type package_id db
        = (.error (.operational msg), db, [])) := by
  refine ⟨?_, ?_, ?_⟩
  · intro msg hins hdup
    simp only [insert_dependency_db, hlook, hins, hdup, if_true]
  · intro msg hins hdup
    simp only [insert_dependency_db, hlook, hins, hdup, Bool.false_eq_true, if_false]
  · intro msg hins
    simp only [insert_dependency_db, hlook, hins]

/-- C2 witness: on a store already holding the edge, the duplicate-entry
integrity error is swallowed and the run equals the run on the remaining
(empty) batch. -/
theorem c2_witness :
    insert_dependency_db (fun _ => none) [("requests", 3)] "imported" 7
        ⟨[(42, "requests")], [⟨7, 42, "imported", 3⟩]⟩
      = insert_dependency_db (fun _ => none) [] "imported" 7
          ⟨[(42, "requests")], [⟨7, 42, "imported", 3⟩]⟩ :=
  (c2_recorder_error_handling (fun _ => none) "requests" 3 [] "imported" 7
      ⟨[(42, "requests")], [⟨7, 42, "imported", 3⟩]⟩ 42 (by decide)).1
    dupEntryMsg (by decide) (by decide)

/-- C2 counterexample: a non-integrity store error on the first of two
resolvable entries is not caught: no warning is logged, the second entry is
never attempted, and the error escapes the recorder — refuting the claim
that every non-duplicate store error is logged as a warning and the batch
continues. -/
theorem c2_counterexample :
    insert_dependency_db
      (fun row =>
        if row.needs_package == 1 then
          some (.operational "(2013, Lost connection to MySQL server)")
        else none)
      [("a", 1), ("b", 2)] "imported" 7 ⟨[(1, "a"), (2, "b")], []⟩
      = (.error (.operational "(2013, Lost connection to MySQL server)"),
         ⟨[(1, "a"), (2, "b")], []⟩, []) := by
  decide

/-- C3: with `requests` resolving to id 42, source package id 7 and no
conflicting edge present, a fault-free run of the recorder on
`{"requests": 3}` with kind `imported` appends exactly the edge
`(7, 42, imported, 3)` and logs nothing; a second identical run on the
resulting store changes nothing, logs nothing, and raises nothing past the
caller. -/
theorem c3_recorder_single_edge_idempotent (db : Db)
    (h1 : get_pkg_id_by_name "requests" db = some 42)
    (h2 : db.dependencies.any (fun r =>
        r.package == 7 && r.needs_package == 42 && r.req_type == "imported") = false) :
    insert_dependency_db (fun _ => none) [("requests", 3)] "imported" 7 db
      = (.ok (), { db with dependencies := db.dependencies ++ [⟨7, 42, "imported", 3⟩] }, [])
    ∧ insert_dependency_db (fun _ => none) [("requests", 3)] "imported" 7
        { db with dependencies := db.dependencies ++ [⟨7, 42, "imported", 3⟩] }
      = (.ok (), { db with dependencies := db.dependencies ++ [⟨7, 42, "imported", 3⟩] }, []) := by
  have h1' : get_pkg_id_by_name "requests"
      { db with dependencies := db.dependencies ++ [⟨7, 42, "imported", 3⟩] } = some 42 := h1
  have hins : execInsert (fun _ => none) db ⟨7, 42, "imported", 3⟩
      = .ok { db with dependencies := db.dependencies ++ [⟨7, 42, "imported", 3⟩] } := by
    unfold execInsert
    simp [h2]
  have hany : ({ db with dependencies := db.dependencies ++ [⟨7, 42, "imported", 3⟩] }
      : Db).dependencies.any (fun r =>
        r.package == 7 && r.needs_package == 42 && r.req_type == "imported") = true := by
    simp
  have hins' : execInsert (fun _ => none)
      { db with dependencies := db.dependencies ++ [⟨7, 42, "imported", 3⟩] }
      ⟨7, 42, "imported", 3⟩ = .error (.integrity dupEntryMsg) := by
    unfold execInsert
    simp [hany]
  constructor
  · simp only [insert_dependency_db, h1, hins]
  · simp only [insert_dependency_db, h1', hins']
    rw [if_pos (by decide)]

/-- C3 witness: the two runs on the concrete one-row catalog. -/
theorem c3_witness :
    insert_dependency_db (fun _ => none) [("requests", 3)] "imported" 7
        ⟨[(42, "requests")], []⟩
      = (.ok (), ⟨[(42, "requests")], [⟨7, 42, "imported", 3⟩]⟩, [])
    ∧ insert_dependency_db (fun _ => none) [("requests", 3)] "imported" 7
        ⟨[(42, "requests")], [⟨7, 42, "imported", 3⟩]⟩
      = (.ok (), ⟨[(42, "requests")], [⟨7, 42, "imported", 3⟩]⟩, []) :=
  c3_recorder_single_edge_idempotent ⟨[(42, "requests")], []⟩ (by decide) (by decide)

/-! Helper lemmas about the fetcher's filesystem steps. -/

lemma existsPath_iff (fs : FS) (p : String) :
    fs.existsPath p = true ↔ p ∈ fs.dirs ∨ p ∈ fs.files := by
  simp [FS.existsPath, List.contains]

lemma ensure_cache_dir_exists (fs : FS) :
    (ensure_cache_dir fs).existsPath "pypipackages" = true := by
  unfold ensure_cache_dir
  split
  · assumption
  · simp [existsPath_iff]

lemma ensure_cache_dir_mono (fs : FS) (p : String) (h : fs.existsPath p = true) :
    (ensure_cache_dir fs).existsPath p = true := by
  unfold ensure_cache_dir
  split
  · exact h
  · rw [existsPath_iff] at h ⊢
    rcases h with h | h
    · exact Or.inl (List.mem_cons_of_mem _ h)
    · exact Or.inr h

lemma ensure_cache_dir_of_exists (fs : FS)
    (h : fs.existsPath "pypipackages" = true) : ensure_cache_dir fs = fs := by
  unfold ensure_cache_dir
  simp [h]

lemma ensure_download_exists (target : String) (fs : FS) :
    (ensure_download target fs).1.existsPath target = true := by
  unfold ensure_download
  split
  · assumption
  · simp [existsPath_iff]

lemma ensure_download_mono (target : String) (fs : FS) (p : String)
    (h : fs.existsPath p = true) :
    (ensure_download target fs).1.existsPath p = true := by
  unfold ensure_download
  split
  · exact h
  · rw [existsPath_iff] at h ⊢
    rcases h with h | h
    · exact Or.inl h
    · exact Or.inr (List.mem_cons_of_mem _ h)

lemma ensure_download_of_exists (target : String) (fs : FS)
    (h : fs.existsPath target = true) : ensure_download target fs = (fs, 0) := by
  unfold ensure_download
  simp [h]

lemma ensure_download_net_le (target : String) (fs : FS) :
    (ensure_download target fs).2 ≤ 1 := by
  unfold ensure_download
  split <;> simp

lemma ensure_extract_exists (remote : String → List String)
    (package_url exdir : String) (fs fs3 : FS)
    (h : ensure_extract remote package_url exdir fs = .ok fs3) :
    fs3.existsPath exdir = true := by
  unfold ensure_extract at h
  split at h
  · cases h
    assumption
  · split at h
    · cases h
      simp [existsPath_iff]
    · cases h

lemma ensure_extract_mono (remote : String → List String)
    (package_url exdir : String) (fs fs3 : FS) (p : String)
    (h : ensure_extract remote package_url exdir fs = .ok fs3)
    (hp : fs.existsPath p = true) : fs3.existsPath p = true := by
  unfold ensure_extract at h
  split at h
  · cases h
    assumption
  · split at h
    · cases h
      rw [existsPath_iff] at hp ⊢
      rcases hp with hp | hp
      · exact Or.inl (List.mem_cons_of_mem _ hp)
      · exact Or.inr (List.mem_append_left _ hp)
    · cases h

lemma ensure_extract_of_exists (remote : String → List String)
    (package_url exdir : String) (fs : FS)
    (h : fs.existsPath exdir = true) :
    ensure_extract remote package_url exdir fs = .ok fs := by
  unfold ensure_extract
  simp [h]

/-- After a successful fetch, the extraction directory, the cached archive
and the cache directory all exist, and the returned paths are exactly the
walk of the extraction directory in the final filesystem. -/
lemma download_ok_state (remote : String → List String) (package_url : String)
    (fs fs1 : FS) (l : List String) (n : Nat) (ext : String)
    (hext : get_pkg_extension package_url = .ok ext)
    (h : download remote package_url fs = (.ok l, fs1, n)) :
    fs1.existsPath "pypipackages" = true
    ∧ fs1.existsPath ("pypipackages/" ++ basename package_url) = true
    ∧ fs1.existsPath (sliceDropRight ("pypipackages/" ++ basename package_url)
        ext.length) = true
    ∧ l = walkFiles fs1 (sliceDropRight ("pypipackages/" ++ basename package_url)
        ext.length)
    ∧ n ≤ 1 := by
  unfold download at h
  simp only [hext] at h
  cases hex : ensure_extract remote package_url
      (sliceDropRight ("pypipackages/" ++ basename package_url) ext.length)
      (ensure_download ("pypipackages/" ++ basename package_url)
        (ensure_cache_dir fs)).1 with
  | error e =>
    simp [hex] at h
  | ok fs3 =>
    simp only [hex, Prod.mk.injEq, Except.ok.injEq] at h
    obtain ⟨hl, hfs1, hn⟩ := h
    cases hfs1
    refine ⟨?_, ?_, ?_, ?_, ?_⟩
    · exact ensure_extract_mono _ _ _ _ _ _ hex
        (ensure_download_mono _ _ _ (ensure_cache_dir_exists fs))
    · exact ensure_extract_mono _ _ _ _ _ _ hex
        (ensure_download_exists ("pypipackages/" ++ basename package_url)
          (ensure_cache_dir fs))
    · exact ensure_extract_exists _ _ _ _ _ hex
    · exact hl.symm
    · rw [← hn]
      exact ensure_download_net_le ("pypipackages/" ++ basename package_url)
        (ensure_cache_dir fs)

/-- C5: the fetcher is idempotent — after a successful run, running it again
with the same URL performs no network download, changes nothing, and
returns the same file-path list; the first run downloaded at most once, so
the two runs together download at most once. -/
theorem c5_download_idempotent (remote : String → List String)
    (package_url : String) (fs fs1 : FS) (l : List String) (n : Nat)
    (h : download remote package_url fs = (.ok l, fs1, n)) :
    download remote package_url fs1 = (.ok l, fs1, 0) ∧ n ≤ 1 := by
  cases hext : get_pkg_extension package_url with
  | error e =>
    unfold download at h
    rw [hext] at h
    cases h
  | ok ext =>
    obtain ⟨hcache, htarget, hexdir, hwalk, hn⟩ :=
      download_ok_state remote package_url fs fs1 l n ext hext h
    refine ⟨?_, hn⟩
    unfold download
    simp only [hext, ensure_cache_dir_of_exists fs1 hcache,
      ensure_download_of_exists _ fs1 htarget,
      ensure_extract_of_exists remote package_url _ fs1 hexdir]
    rw [hwalk]

/-- C5 witness: a concrete first fetch downloads once; the second fetch
downloads zero times and returns the same paths. -/
theorem c5_witness :
    download (fun _ => ["a.py"]) "http://h/p.tar.gz"
        ⟨["pypipackages/p", "pypipackages"],
         ["pypipackages/p.tar.gz", "pypipackages/p/a.py"]⟩
      = (.ok ["pypipackages/p/a.py"],
         ⟨["pypipackages/p", "pypipackages"],
          ["pypipackages/p.tar.gz", "pypipackages/p/a.py"]⟩, 0)
    ∧ 1 ≤ 1 :=
  c5_download_idempotent (fun _ => ["a.py"]) "http://h/p.tar.gz" ⟨[], []⟩
    ⟨["pypipackages/p", "pypipackages"],
     ["pypipackages/p.tar.gz", "pypipackages/p/a.py"]⟩
    ["pypipackages/p/a.py"] 1 (by decide)

/-- C10: the driver downloads and extracts before looking the source
package up in the catalog; when the name is unresolvable the run ends via
exit code 1, but the filesystem returned is the post-download one — in
particular the cached archive already exists — and the network fetch
already happened. -/
theorem c10_download_precedes_lookup (remote : String → List String)
    (contentOf : String → String) (faults : DepRow → Option SqlError)
    (package_name package_url : String) (db : Db) (fs fs1 : FS)
    (l : List String) (n : Nat)
    (hdl : download remote package_url fs = (.ok l, fs1, n))
    (hpkg : get_pkg_id_by_name package_name db = none) :
    main remote contentOf faults package_name package_url db fs
      = (.exit1, fs1, db, [⟨.info, "Package id could not be determined"⟩], n)
    ∧ fs1.existsPath ("pypipackages/" ++ basename package_url) = true := by
  constructor
  · unfold main
    rw [hdl, hpkg]
  · cases hext : get_pkg_extension package_url with
    | error e =>
      unfold download at hdl
      rw [hext] at hdl
      cases hdl
    | ok ext =>
      exact (download_ok_state remote package_url fs fs1 l n ext hext hdl).2.1

/-- C10 witness: with an empty catalog, a concrete run exits with code 1
while the archive is already cached and extracted. -/
theorem c10_witness :
    main (fun _ => ["a.py"]) (fun _ => "") (fun _ => none) "foo" "http://h/p.tar.gz"
        ⟨[], []⟩ ⟨[], []⟩
      = (.exit1,
         ⟨["pypipackages/p", "pypipackages"],
          ["pypipackages/p.tar.gz", "pypipackages/p/a.py"]⟩,
         ⟨[], []⟩, [⟨.info, "Package id could not be determined"⟩], 1)
    ∧ FS.existsPath
        ⟨["pypipackages/p", "pypipackages"],
         ["pypipackages/p.tar.gz", "pypipackages/p/a.py"]⟩
        ("pypipackages/" ++ basename "http://h/p.tar.gz") = true :=
  c10_download_precedes_lookup (fun _ => ["a.py"]) (fun _ => "") (fun _ => none)
    "foo" "http://h/p.tar.gz" ⟨[], []⟩ ⟨[], []⟩
    ⟨["pypipackages/p", "pypipackages"],
     ["pypipackages/p.tar.gz", "pypipackages/p/a.py"]⟩
    ["pypipackages/p/a.py"] 1 (by decide) (by decide)

end PkgAnalysis

